import Mathlib

/-
Verification of the neighbor-weighted rating-prediction logic of the
RecommenderSystems repository.

The repository's notebooks hard-code two-neighbor weighted averages over
the concrete 5-user by 6-item rating matrix; the general `predict`
routine described by the specification is not present as a function in
the source, so it is modelled here from the specification's algorithm
(section 4.1) and checked both in general and against the concrete
matrix, the raw zero-filled cosine similarity matrix, and the
pairwise-complete Pearson correlation matrix that the notebooks compute.
-/

namespace RecSys

/-- Failure conditions of the rating predictor, as named by the spec's
error-handling taxonomy. -/
inductive PredictError where
  | UnknownEntity
  | NoEligibleNeighbors
  | DegenerateNormalization
  deriving DecidableEq, Repr

/-- A user-by-item rating matrix: row keys, column keys, and an optional
rating per (user, item) pair; `none` means "not rated". -/
structure RatingMatrix (U I α : Type) where
  users : List U
  items : List I
  rating : U → I → Option α

/-- A square pairwise similarity (or correlation) matrix over entities. -/
structure SimilarityMatrix (U α : Type) where
  entities : List U
  sim : U → U → α

variable {U I : Type} {α : Type}

/-- Modelled from the spec: stable insertion of `x` into a list already
sorted by descending `key`; on ties the earlier element keeps its place
(stable tie-break by the original identifier order). -/
def insertDesc [LinearOrder α] (key : U → α) (x : U) : List U → List U
  | [] => [x]
  | y :: ys => if key y ≤ key x then x :: y :: ys else y :: insertDesc key x ys

/-- Modelled from the spec: stable sort by descending `key`. -/
def sortDesc [LinearOrder α] (key : U → α) : List U → List U
  | [] => []
  | x :: xs => insertDesc key x (sortDesc key xs)

/-- Modelled from the spec: candidate peers for a query, namely the rows
other than the target that have a non-missing rating for the item. -/
def eligible [DecidableEq U] (R : RatingMatrix U I α) (target : U) (item : I) : List U :=
  R.users.filter fun u => decide (u ≠ target) && (R.rating u item).isSome

/-- Modelled from the spec: the k entities most similar to the target, by
descending similarity, excluding the target, among rows with a
non-missing rating for the item. -/
def topK [DecidableEq U] [LinearOrder α] (R : RatingMatrix U I α)
    (S : SimilarityMatrix U α) (target : U) (item : I) (k : ℕ) : List U :=
  (sortDesc (fun u => S.sim target u) (eligible R target item)).take k

/-- Modelled from the spec: the rating value used for a peer, either the
raw rating or the peer's mean-centered rating. -/
def ratingValue [LinearOrderedField α] (R : RatingMatrix U I α) (centered : Bool)
    (means : U → α) (u : U) (item : I) : α :=
  (R.rating u item).getD 0 - (if centered then means u else 0)

/-- Modelled from the spec (steps 2-4 of the algorithm, stated as the
spec words them): the similarity-weighted sum of the peers' rating
values, normalized by the sum of the similarities, with the target's
mean added back when centered. -/
def weightedAverage [LinearOrderedField α] (R : RatingMatrix U I α)
    (S : SimilarityMatrix U α) (target : U) (item : I) (centered : Bool)
    (means : U → α) (peers : List U) : α :=
  (peers.map fun u => S.sim target u * ratingValue R centered means u item).sum /
      (peers.map fun u => S.sim target u).sum +
    (if centered then means target else 0)

/-- Modelled from the spec: the rating predictor of section 4.1.  Checks
that the target and item are present, selects the top-k eligible peers,
fails explicitly on an empty neighborhood or a zero similarity sum, and
otherwise returns the weighted average (plus the target's mean when
centered). -/
def predict [DecidableEq U] [DecidableEq I] [LinearOrderedField α]
    (R : RatingMatrix U I α) (S : SimilarityMatrix U α) (target : U) (item : I)
    (k : ℕ) (centered : Bool) (means : U → α) : Except PredictError α :=
  if target ∈ R.users ∧ target ∈ S.entities ∧ item ∈ R.items then
    let peers := topK R S target item k
    if peers = [] then .error .NoEligibleNeighbors
    else
      let ssum := (peers.map fun u => S.sim target u).sum
      if ssum = 0 then .error .DegenerateNormalization
      else
        let wsum := (peers.map fun u => S.sim target u * ratingValue R centered means u item).sum
        .ok (if centered then means target + wsum / ssum else wsum / ssum)
  else .error .UnknownEntity

/-! Concrete data from the notebooks: the 5-user by 6-item rating matrix
(user-3 missing item-1 and item-6), with rows and columns keyed by the
string identifiers the notebooks use. -/

/-- Row keys of the reference rating matrix. -/
def userIds : List String := ["user-1", "user-2", "user-3", "user-4", "user-5"]

/-- Column keys of the reference rating matrix. -/
def itemIds : List String := ["item-1", "item-2", "item-3", "item-4", "item-5", "item-6"]

/-- Row of user-1's ratings, in item order. -/
def row1 : List (Option ℝ) := [some 7, some 6, some 7, some 4, some 5, some 4]

/-- Row of user-2's ratings, in item order. -/
def row2 : List (Option ℝ) := [some 6, some 7, none, some 4, some 3, some 4]

/-- Row of user-3's ratings, in item order. -/
def row3 : List (Option ℝ) := [none, some 3, some 3, some 1, some 1, none]

/-- Row of user-4's ratings, in item order. -/
def row4 : List (Option ℝ) := [some 1, some 2, some 2, some 3, some 3, some 4]

/-- Row of user-5's ratings, in item order. -/
def row5 : List (Option ℝ) := [some 1, none, some 1, some 2, some 3, some 3]

/-- The ratings row of a given user. -/
def userRowR (u : String) : List (Option ℝ) :=
  if u = "user-1" then row1
  else if u = "user-2" then row2
  else if u = "user-3" then row3
  else if u = "user-4" then row4
  else if u = "user-5" then row5
  else []

/-- Positional index of an item key. -/
def itemIndex (i : String) : ℕ :=
  if i = "item-1" then 0
  else if i = "item-2" then 1
  else if i = "item-3" then 2
  else if i = "item-4" then 3
  else if i = "item-5" then 4
  else if i = "item-6" then 5
  else 6

/-- The reference rating matrix of the notebooks (`data_frame`). -/
def ratingsR : RatingMatrix String String ℝ where
  users := userIds
  items := itemIds
  rating := fun u i => (userRowR u).getD (itemIndex i) none

/-- Zero-fill of a possibly missing rating (`fillna(0)` in the source). -/
def fillZ (r : Option ℝ) : ℝ := r.getD 0

/-- Dot product of two users' zero-filled rating rows. -/
def dotZ (u v : String) : ℝ :=
  (itemIds.map fun i => fillZ (ratingsR.rating u i) * fillZ (ratingsR.rating v i)).sum

/-- Raw cosine similarity of two users: the dot product of their
zero-filled rows over the product of the rows' Euclidean norms
(`cosine_similarity(data_frame.fillna(0))` in the source). -/
noncomputable def cosRaw (u v : String) : ℝ :=
  dotZ u v / (Real.sqrt (dotZ u u) * Real.sqrt (dotZ v v))

/-- The raw zero-filled cosine similarity matrix (`cosine_similarity_raw`). -/
noncomputable def cosineRawSim : SimilarityMatrix String ℝ :=
  { entities := userIds, sim := cosRaw }

/-- Pairs of ratings of two users over the items rated by both
(pairwise-complete observations). -/
def pairedVals (u v : String) : List (ℝ × ℝ) :=
  (itemIds.filter fun i => (ratingsR.rating u i).isSome && (ratingsR.rating v i).isSome).map
    fun i => ((ratingsR.rating u i).getD 0, (ratingsR.rating v i).getD 0)

/-- Pairwise-complete Pearson correlation of two users
(`data_frame.T.corr()` in the source): centered cross products over the
product of the centered norms, computed on the co-rated items only. -/
noncomputable def pearson (u v : String) : ℝ :=
  let ps := pairedVals u v
  let mx := (ps.map Prod.fst).sum / (ps.length : ℝ)
  let my := (ps.map Prod.snd).sum / (ps.length : ℝ)
  (ps.map fun p => (p.1 - mx) * (p.2 - my)).sum /
    (Real.sqrt ((ps.map fun p => (p.1 - mx) ^ 2).sum) *
      Real.sqrt ((ps.map fun p => (p.2 - my) ^ 2).sum))

/-- The Pearson correlation matrix over users (`correlation`). -/
noncomputable def pearsonSim : SimilarityMatrix String ℝ :=
  { entities := userIds, sim := pearson }

/-! Mean-centering, as the notebooks perform it per user row
(`means_data_frame` and `user_means`). -/

/-- The observed (non-missing) entries of a row, in order. -/
def obsVals (row : List (Option α)) : List α := row.filterMap id

/-- Arithmetic mean of a row's observed ratings, ignoring missing
entries (`mean(axis=1)` in the source). -/
def rowMean [LinearOrderedField α] (row : List (Option α)) : α :=
  (obsVals row).sum / ((obsVals row).length : α)

/-- Mean-centering of a row: the row's mean over observed entries is
subtracted from each present entry; missing entries stay missing
(`row.subtract(user_means[user])` in the source). -/
def centerRow [LinearOrderedField α] (row : List (Option α)) : List (Option α) :=
  row.map (Option.map fun x => x - rowMean row)

/-- The per-user means of the reference matrix (`user_means`). -/
noncomputable def userMeansR (u : String) : ℝ :=
  rowMean (itemIds.map fun i => ratingsR.rating u i)

/-! The notebook's hard-coded predictions, which weight user-1 and
user-2 regardless of similarity kind. -/

/-- The cosine notebook's hard-coded expression
`prediction_user_3_item_1`: weighted average of user-1's and user-2's
item-1 ratings under raw cosine weights. -/
noncomputable def prediction_user_3_item_1 : ℝ :=
  (cosRaw "user-3" "user-1" * (ratingsR.rating "user-1" "item-1").getD 0 +
      cosRaw "user-3" "user-2" * (ratingsR.rating "user-2" "item-1").getD 0) /
    (cosRaw "user-3" "user-1" + cosRaw "user-3" "user-2")

/-- The value the spec-modelled predictor actually returns for
(user-3, item-1, k=2, uncentered) under raw cosine similarity: its
top-2 peers are user-1 and user-4. -/
noncomputable def cosPredict31 : ℝ :=
  (cosRaw "user-3" "user-1" * 7 + cosRaw "user-3" "user-4" * 1) /
    (cosRaw "user-3" "user-1" + cosRaw "user-3" "user-4")

/-- The value the spec-modelled predictor returns for
(user-3, item-1, k=2, uncentered) under Pearson correlation: its top-2
peers are user-2 and user-1. -/
noncomputable def pearsonPredict31 : ℝ :=
  (pearson "user-3" "user-2" * 6 + pearson "user-3" "user-1" * 7) /
    (pearson "user-3" "user-2" + pearson "user-3" "user-1")

/-- The value the spec-modelled predictor returns for
(user-3, item-1, k=2, centered) under Pearson correlation. -/
noncomputable def pearsonPredict31c : ℝ :=
  userMeansR "user-3" +
    (pearson "user-3" "user-2" * (6 - userMeansR "user-2") +
        pearson "user-3" "user-1" * (7 - userMeansR "user-1")) /
      (pearson "user-3" "user-2" + pearson "user-3" "user-1")

/-! Small rational-valued instances used as executable witnesses for the
general theorems about the predictor. -/

/-- A three-user, one-item rational rating matrix for witnesses. -/
def ratingsQ : RatingMatrix String String ℚ where
  users := ["a", "b", "c"]
  items := ["x"]
  rating := fun u i =>
    if u = "a" ∧ i = "x" then some 3
    else if u = "b" ∧ i = "x" then some 5
    else if u = "c" ∧ i = "x" then some 5 else none

/-- A witness similarity matrix whose off-diagonal similarities to `a`
sum to zero. -/
def simQ : SimilarityMatrix String ℚ where
  entities := ["a", "b", "c"]
  sim := fun u v => if u = v then 1 else if u = "a" ∧ v = "c" then -1 else 1

/-- A witness similarity matrix with all similarities equal to one. -/
def simQ1 : SimilarityMatrix String ℚ where
  entities := ["a", "b", "c"]
  sim := fun _ _ => 1

/-- Witness means over the rational matrix. -/
def meansQ (u : String) : ℚ := if u = "b" then 2 else 1

/-- A one-user matrix: the only row rates the only item 5. -/
def ratingsOne : RatingMatrix String String ℚ where
  users := ["a"]
  items := ["x"]
  rating := fun u i => if u = "a" ∧ i = "x" then some 5 else none

/-- All-ones similarity over the one-user matrix (self-similarity 1). -/
def simOne : SimilarityMatrix String ℚ where
  entities := ["a"]
  sim := fun _ _ => 1

/-- A rational row with one missing entry, used to witness the
mean-centering invariant (user-2's row of the reference matrix). -/
def rowQ2 : List (Option ℚ) := [some 6, some 7, none, some 4, some 3, some 4]

/-! General lemmas about the spec-modelled predictor. -/

/-- When the guards pass, the neighborhood is non-empty and the
similarity sum is non-zero, the predictor succeeds with the weighted
average over the selected peers. -/
lemma predictOk_eq [DecidableEq U] [DecidableEq I] [LinearOrderedField α]
    (R : RatingMatrix U I α) (S : SimilarityMatrix U α) (t : U) (i : I) (k : ℕ)
    (c : Bool) (m : U → α)
    (hmem : t ∈ R.users ∧ t ∈ S.entities ∧ i ∈ R.items)
    (hne : topK R S t i k ≠ [])
    (hsum : ((topK R S t i k).map fun u => S.sim t u).sum ≠ 0) :
    predict R S t i k c m = .ok (weightedAverage R S t i c m (topK R S t i k)) := by
  simp only [predict]
  rw [if_pos hmem, if_neg hne, if_neg hsum, weightedAverage]
  cases c
  · norm_num
  · norm_num [add_comm]

/-- Evaluation of the predictor when the top-k selection returns exactly
two peers. -/
lemma predict_pair [DecidableEq U] [DecidableEq I] [LinearOrderedField α]
    (R : RatingMatrix U I α) (S : SimilarityMatrix U α) (t : U) (i : I)
    (k : ℕ) (c : Bool) (m : U → α) (u v : U)
    (hmem : t ∈ R.users ∧ t ∈ S.entities ∧ i ∈ R.items)
    (htop : topK R S t i k = [u, v])
    (hsum : S.sim t u + (S.sim t v + 0) ≠ 0) :
    predict R S t i k c m =
      .ok (if c then
            m t + (S.sim t u * ratingValue R c m u i + (S.sim t v * ratingValue R c m v i + 0)) /
              (S.sim t u + (S.sim t v + 0))
          else
            (S.sim t u * ratingValue R c m u i + (S.sim t v * ratingValue R c m v i + 0)) /
              (S.sim t u + (S.sim t v + 0))) := by
  rw [predict, if_pos hmem]
  simp only [htop, List.map_cons, List.map_nil, List.sum_cons, List.sum_nil]
  rw [if_neg (by simp : ¬([u, v] = [])), if_neg hsum]

/-! Rational bounds for quotients by square roots, used to compare the
irrational cosine and Pearson similarity values. -/

/-- Lower bound for a quotient by a square root. -/
lemma lt_div_sqrt (a m lo : ℝ) (hm : 0 < m) (hlo : 0 ≤ lo) (ha : 0 ≤ a)
    (h : lo ^ 2 * m < a ^ 2) : lo < a / Real.sqrt m := by
  rw [lt_div_iff₀ (Real.sqrt_pos.mpr hm)]
  have h1 : lo * Real.sqrt m = Real.sqrt (lo ^ 2 * m) := by
    rw [Real.sqrt_mul (sq_nonneg lo), Real.sqrt_sq hlo]
  rw [h1]
  calc Real.sqrt (lo ^ 2 * m) < Real.sqrt (a ^ 2) := Real.sqrt_lt_sqrt (by positivity) h
    _ = a := Real.sqrt_sq ha

/-- Upper bound for a quotient by a square root. -/
lemma div_sqrt_lt (a m hi : ℝ) (hm : 0 < m) (hhi : 0 ≤ hi) (ha : 0 ≤ a)
    (h : a ^ 2 < hi ^ 2 * m) : a / Real.sqrt m < hi := by
  rw [div_lt_iff₀ (Real.sqrt_pos.mpr hm)]
  have h1 : hi * Real.sqrt m = Real.sqrt (hi ^ 2 * m) := by
    rw [Real.sqrt_mul (sq_nonneg hi), Real.sqrt_sq hhi]
  rw [h1]
  calc a = Real.sqrt (a ^ 2) := (Real.sqrt_sq ha).symm
    _ < Real.sqrt (hi ^ 2 * m) := Real.sqrt_lt_sqrt (sq_nonneg a) h

/-! Evaluation of the zero-filled dot products of the reference matrix. -/

lemma dotZ_11 : dotZ "user-1" "user-1" = 191 := by
  show ([(7:ℝ)*7, 6*6, 7*7, 4*4, 5*5, 4*4]).sum = 191
  norm_num [List.sum_cons, List.sum_nil]

lemma dotZ_22 : dotZ "user-2" "user-2" = 126 := by
  show ([(6:ℝ)*6, 7*7, 0*0, 4*4, 3*3, 4*4]).sum = 126
  norm_num [List.sum_cons, List.sum_nil]

lemma dotZ_33 : dotZ "user-3" "user-3" = 20 := by
  show ([(0:ℝ)*0, 3*3, 3*3, 1*1, 1*1, 0*0]).sum = 20
  norm_num [List.sum_cons, List.sum_nil]

lemma dotZ_44 : dotZ "user-4" "user-4" = 43 := by
  show ([(1:ℝ)*1, 2*2, 2*2, 3*3, 3*3, 4*4]).sum = 43
  norm_num [List.sum_cons, List.sum_nil]

lemma dotZ_55 : dotZ "user-5" "user-5" = 24 := by
  show ([(1:ℝ)*1, 0*0, 1*1, 2*2, 3*3, 3*3]).sum = 24
  norm_num [List.sum_cons, List.sum_nil]

lemma dotZ_31 : dotZ "user-3" "user-1" = 48 := by
  show ([(0:ℝ)*7, 3*6, 3*7, 1*4, 1*5, 0*4]).sum = 48
  norm_num [List.sum_cons, List.sum_nil]

lemma dotZ_32 : dotZ "user-3" "user-2" = 28 := by
  show ([(0:ℝ)*6, 3*7, 3*0, 1*4, 1*3, 0*4]).sum = 28
  norm_num [List.sum_cons, List.sum_nil]

lemma dotZ_34 : dotZ "user-3" "user-4" = 18 := by
  show ([(0:ℝ)*1, 3*2, 3*2, 1*3, 1*3, 0*4]).sum = 18
  norm_num [List.sum_cons, List.sum_nil]

lemma dotZ_35 : dotZ "user-3" "user-5" = 8 := by
  show ([(0:ℝ)*1, 3*0, 3*1, 1*2, 1*3, 0*3]).sum = 8
  norm_num [List.sum_cons, List.sum_nil]

/-! Closed forms and rational bounds for user-3's raw cosine
similarities. The printed notebook values are 0.776622, 0.557773,
0.613795 and 0.365148: in particular user-4 is strictly more similar to
user-3 than user-2 is. -/

lemma cosRaw_31 : cosRaw "user-3" "user-1" = 48 / Real.sqrt 3820 := by
  rw [cosRaw, dotZ_31, dotZ_33, dotZ_11, ← Real.sqrt_mul (by norm_num : (0:ℝ) ≤ 20) 191]
  norm_num

lemma cosRaw_32 : cosRaw "user-3" "user-2" = 28 / Real.sqrt 2520 := by
  rw [cosRaw, dotZ_32, dotZ_33, dotZ_22, ← Real.sqrt_mul (by norm_num : (0:ℝ) ≤ 20) 126]
  norm_num

lemma cosRaw_34 : cosRaw "user-3" "user-4" = 18 / Real.sqrt 860 := by
  rw [cosRaw, dotZ_34, dotZ_33, dotZ_44, ← Real.sqrt_mul (by norm_num : (0:ℝ) ≤ 20) 43]
  norm_num

lemma cosRaw_35 : cosRaw "user-3" "user-5" = 8 / Real.sqrt 480 := by
  rw [cosRaw, dotZ_35, dotZ_33, dotZ_55, ← Real.sqrt_mul (by norm_num : (0:ℝ) ≤ 20) 24]
  norm_num

lemma cos31_lb : (0.7766 : ℝ) < cosRaw "user-3" "user-1" := by
  rw [cosRaw_31]
  exact lt_div_sqrt 48 3820 0.7766 (by norm_num) (by norm_num) (by norm_num) (by norm_num)

lemma cos31_ub : cosRaw "user-3" "user-1" < 0.7767 := by
  rw [cosRaw_31]
  exact div_sqrt_lt 48 3820 0.7767 (by norm_num) (by norm_num) (by norm_num) (by norm_num)

lemma cos32_lb : (0.5577 : ℝ) < cosRaw "user-3" "user-2" := by
  rw [cosRaw_32]
  exact lt_div_sqrt 28 2520 0.5577 (by norm_num) (by norm_num) (by norm_num) (by norm_num)

lemma cos32_ub : cosRaw "user-3" "user-2" < 0.5578 := by
  rw [cosRaw_32]
  exact div_sqrt_lt 28 2520 0.5578 (by norm_num) (by norm_num) (by norm_num) (by norm_num)

lemma cos34_lb : (0.6137 : ℝ) < cosRaw "user-3" "user-4" := by
  rw [cosRaw_34]
  exact lt_div_sqrt 18 860 0.6137 (by norm_num) (by norm_num) (by norm_num) (by norm_num)

lemma cos34_ub : cosRaw "user-3" "user-4" < 0.6138 := by
  rw [cosRaw_34]
  exact div_sqrt_lt 18 860 0.6138 (by norm_num) (by norm_num) (by norm_num) (by norm_num)

lemma cos35_lb : (0.3651 : ℝ) < cosRaw "user-3" "user-5" := by
  rw [cosRaw_35]
  exact lt_div_sqrt 8 480 0.3651 (by norm_num) (by norm_num) (by norm_num) (by norm_num)

lemma cos35_ub : cosRaw "user-3" "user-5" < 0.3652 := by
  rw [cosRaw_35]
  exact div_sqrt_lt 8 480 0.3652 (by norm_num) (by norm_num) (by norm_num) (by norm_num)

/-- Descending stable sort of user-3's candidate peers under raw cosine
similarity: user-1, then user-4, then user-2, then user-5. -/
lemma sortCos : sortDesc (fun u => cosineRawSim.sim "user-3" u)
    ["user-1", "user-2", "user-4", "user-5"] = ["user-1", "user-4", "user-2", "user-5"] := by
  have h54 : cosRaw "user-3" "user-5" ≤ cosRaw "user-3" "user-4" := by
    have := cos35_ub; have := cos34_lb; linarith
  have h42 : ¬ cosRaw "user-3" "user-4" ≤ cosRaw "user-3" "user-2" := by
    have := cos32_ub; have := cos34_lb; intro h; linarith
  have h52 : cosRaw "user-3" "user-5" ≤ cosRaw "user-3" "user-2" := by
    have := cos35_ub; have := cos32_lb; linarith
  have h41 : cosRaw "user-3" "user-4" ≤ cosRaw "user-3" "user-1" := by
    have := cos34_ub; have := cos31_lb; linarith
  simp only [sortDesc, insertDesc, cosineRawSim]
  rw [if_pos h54]
  simp only [insertDesc]
  rw [if_neg h42, if_pos h52]
  simp only [insertDesc]
  rw [if_pos h41]

/-- Top-2 raw cosine peers of user-3 for item-1: user-1 and user-4. -/
lemma topK_cos_i1 : topK ratingsR cosineRawSim "user-3" "item-1" 2 = ["user-1", "user-4"] := by
  have he : eligible ratingsR "user-3" "item-1" = ["user-1", "user-2", "user-4", "user-5"] := rfl
  rw [topK, he, sortCos]
  rfl

/-- Top-2 raw cosine peers of user-3 for item-6: also user-1 and
user-4, since the same four candidates are eligible. -/
lemma topK_cos_i6 : topK ratingsR cosineRawSim "user-3" "item-6" 2 = ["user-1", "user-4"] := by
  have he : eligible ratingsR "user-3" "item-6" = ["user-1", "user-2", "user-4", "user-5"] := rfl
  rw [topK, he, sortCos]
  rfl

/-! Evaluation of user-3's pairwise-complete Pearson correlations. The
printed notebook values are 0.894427, 0.970725, -1.000000 and
-0.866025. -/

lemma pairedVals_31 : pairedVals "user-3" "user-1" = [(3, 6), (3, 7), (1, 4), (1, 5)] := rfl

lemma pairedVals_32 : pairedVals "user-3" "user-2" = [(3, 7), (1, 4), (1, 3)] := rfl

lemma pairedVals_34 : pairedVals "user-3" "user-4" = [(3, 2), (3, 2), (1, 3), (1, 3)] := rfl

lemma pairedVals_35 : pairedVals "user-3" "user-5" = [(3, 1), (1, 2), (1, 3)] := rfl

lemma pearson_31 : pearson "user-3" "user-1" = 4 / Real.sqrt 20 := by
  have h : pearson "user-3" "user-1" = 4 / (Real.sqrt 4 * Real.sqrt 5) := by
    rw [pearson, pairedVals_31]
    norm_num [List.sum_cons, List.sum_nil]
  rw [h, ← Real.sqrt_mul (by norm_num : (0:ℝ) ≤ 4) 5]
  norm_num

lemma pearson_32 : pearson "user-3" "user-2" = (14 / 3) / Real.sqrt (208 / 9) := by
  have h : pearson "user-3" "user-2" =
      (14 / 3) / (Real.sqrt (8 / 3) * Real.sqrt (26 / 3)) := by
    rw [pearson, pairedVals_32]
    norm_num [List.sum_cons, List.sum_nil]
  rw [h, ← Real.sqrt_mul (by norm_num : (0:ℝ) ≤ 8 / 3) (26 / 3)]
  norm_num

lemma pearson_34 : pearson "user-3" "user-4" = -1 := by
  rw [pearson, pairedVals_34]
  norm_num [List.sum_cons, List.sum_nil]
  rw [show Real.sqrt 4 = 2 by
    rw [show (4:ℝ) = 2 ^ 2 by norm_num, Real.sqrt_sq (by norm_num : (0:ℝ) ≤ 2)]]
  norm_num

lemma pearson_35 : pearson "user-3" "user-5" = -2 / Real.sqrt (16 / 3) := by
  rw [pearson, pairedVals_35]
  norm_num [List.sum_cons, List.sum_nil]
  rw [div_mul_eq_mul_div, ← Real.sqrt_mul (by norm_num : (0:ℝ) ≤ 8) 2]
  norm_num

lemma pearson31_lb : (0.894427 : ℝ) < pearson "user-3" "user-1" := by
  rw [pearson_31]
  exact lt_div_sqrt 4 20 0.894427 (by norm_num) (by norm_num) (by norm_num) (by norm_num)

lemma pearson31_ub : pearson "user-3" "user-1" < 0.894428 := by
  rw [pearson_31]
  exact div_sqrt_lt 4 20 0.894428 (by norm_num) (by norm_num) (by norm_num) (by norm_num)

lemma pearson32_lb : (0.970725 : ℝ) < pearson "user-3" "user-2" := by
  rw [pearson_32]
  exact lt_div_sqrt (14 / 3) (208 / 9) 0.970725 (by norm_num) (by norm_num) (by norm_num)
    (by norm_num)

lemma pearson32_ub : pearson "user-3" "user-2" < 0.970726 := by
  rw [pearson_32]
  exact div_sqrt_lt (14 / 3) (208 / 9) 0.970726 (by norm_num) (by norm_num) (by norm_num)
    (by norm_num)

lemma pearson35_lb : (-1 : ℝ) < pearson "user-3" "user-5" := by
  rw [pearson_35]
  have h : (2 : ℝ) / Real.sqrt (16 / 3) < 1 :=
    div_sqrt_lt 2 (16 / 3) 1 (by norm_num) (by norm_num) (by norm_num) (by norm_num)
  rw [neg_div]
  linarith

lemma pearson35_neg : pearson "user-3" "user-5" < 0 := by
  rw [pearson_35]
  exact div_neg_of_neg_of_pos (by norm_num) (Real.sqrt_pos.mpr (by norm_num))

/-- Descending stable sort of user-3's candidate peers under Pearson
correlation: user-2, then user-1, then user-5, then user-4. -/
lemma sortPearson : sortDesc (fun u => pearsonSim.sim "user-3" u)
    ["user-1", "user-2", "user-4", "user-5"] = ["user-2", "user-1", "user-5", "user-4"] := by
  have h54 : ¬ pearson "user-3" "user-5" ≤ pearson "user-3" "user-4" := by
    rw [pearson_34]; have := pearson35_lb; intro h; linarith
  have h52 : pearson "user-3" "user-5" ≤ pearson "user-3" "user-2" := by
    have := pearson35_neg; have := pearson32_lb; linarith
  have h21 : ¬ pearson "user-3" "user-2" ≤ pearson "user-3" "user-1" := by
    have := pearson31_ub; have := pearson32_lb; intro h; linarith
  have h51 : pearson "user-3" "user-5" ≤ pearson "user-3" "user-1" := by
    have := pearson35_neg; have := pearson31_lb; linarith
  simp only [sortDesc, insertDesc, pearsonSim]
  rw [if_neg h54]
  simp only [insertDesc]
  rw [if_pos h52]
  simp only [insertDesc]
  rw [if_neg h21, if_pos h51]

/-- Top-2 Pearson peers of user-3 for item-1: user-2 then user-1. -/
lemma topK_pearson_i1 : topK ratingsR pearsonSim "user-3" "item-1" 2 = ["user-2", "user-1"] := by
  have he : eligible ratingsR "user-3" "item-1" = ["user-1", "user-2", "user-4", "user-5"] := rfl
  rw [topK, he, sortPearson]
  rfl

/-! Evaluation of the user means of the reference matrix. -/

lemma userMeans_1 : userMeansR "user-1" = 11 / 2 := by
  show rowMean [some (7:ℝ), some 6, some 7, some 4, some 5, some 4] = 11 / 2
  rw [rowMean]
  show ([(7:ℝ), 6, 7, 4, 5, 4]).sum / (([(7:ℝ), 6, 7, 4, 5, 4]).length : ℝ) = 11 / 2
  norm_num [List.sum_cons, List.sum_nil]

lemma userMeans_2 : userMeansR "user-2" = 24 / 5 := by
  show rowMean [some (6:ℝ), some 7, none, some 4, some 3, some 4] = 24 / 5
  rw [rowMean]
  show ([(6:ℝ), 7, 4, 3, 4]).sum / (([(6:ℝ), 7, 4, 3, 4]).length : ℝ) = 24 / 5
  norm_num [List.sum_cons, List.sum_nil]

lemma userMeans_3 : userMeansR "user-3" = 2 := by
  show rowMean [none, some (3:ℝ), some 3, some 1, some 1, none] = 2
  rw [rowMean]
  show ([(3:ℝ), 3, 1, 1]).sum / (([(3:ℝ), 3, 1, 1]).length : ℝ) = 2
  norm_num [List.sum_cons, List.sum_nil]

/-! Evaluation of the spec-modelled predictor on the concrete queries. -/

lemma hmemCos_i1 : "user-3" ∈ ratingsR.users ∧ "user-3" ∈ cosineRawSim.entities ∧
    "item-1" ∈ ratingsR.items := by
  refine ⟨?_, ?_, ?_⟩ <;> decide

lemma hmemCos_i6 : "user-3" ∈ ratingsR.users ∧ "user-3" ∈ cosineRawSim.entities ∧
    "item-6" ∈ ratingsR.items := by
  refine ⟨?_, ?_, ?_⟩ <;> decide

lemma hmemPearson_i1 : "user-3" ∈ ratingsR.users ∧ "user-3" ∈ pearsonSim.entities ∧
    "item-1" ∈ ratingsR.items := by
  refine ⟨?_, ?_, ?_⟩ <;> decide

lemma cosSum14_pos : 0 < cosRaw "user-3" "user-1" + cosRaw "user-3" "user-4" := by
  have := cos31_lb
  have := cos34_lb
  linarith

lemma pearsonSum21_pos : 0 < pearson "user-3" "user-2" + pearson "user-3" "user-1" := by
  have := pearson32_lb
  have := pearson31_lb
  linarith

/-- The predictor's answer for (user-3, item-1, k = 2, uncentered) under
raw cosine similarity. -/
lemma predict_cos_i1 : predict ratingsR cosineRawSim "user-3" "item-1" 2 false userMeansR =
    .ok cosPredict31 := by
  rw [predict_pair ratingsR cosineRawSim "user-3" "item-1" 2 false userMeansR "user-1" "user-4"
    hmemCos_i1 topK_cos_i1
    (by show cosRaw _ _ + (cosRaw _ _ + 0) ≠ 0
        have := cosSum14_pos
        intro h
        rw [add_zero] at h
        linarith)]
  have h1 : ratingValue ratingsR false userMeansR "user-1" "item-1" = 7 := by
    show (some (7:ℝ)).getD 0 - (if false then userMeansR "user-1" else 0) = 7
    norm_num
  have h4 : ratingValue ratingsR false userMeansR "user-4" "item-1" = 1 := by
    show (some (1:ℝ)).getD 0 - (if false then userMeansR "user-4" else 0) = 1
    norm_num
  rw [if_neg (by simp : ¬ false = true)]
  rw [h1, h4, cosPredict31]
  norm_num [cosineRawSim]

/-- The predictor's answer for (user-3, item-6, k = 2, uncentered) under
raw cosine similarity is exactly 4: both selected peers rate item-6
with 4. -/
lemma predict_cos_i6 : predict ratingsR cosineRawSim "user-3" "item-6" 2 false userMeansR =
    .ok 4 := by
  rw [predict_pair ratingsR cosineRawSim "user-3" "item-6" 2 false userMeansR "user-1" "user-4"
    hmemCos_i6 topK_cos_i6
    (by show cosRaw _ _ + (cosRaw _ _ + 0) ≠ 0
        have := cosSum14_pos
        intro h
        rw [add_zero] at h
        linarith)]
  have h1 : ratingValue ratingsR false userMeansR "user-1" "item-6" = 4 := by
    show (some (4:ℝ)).getD 0 - (if false then userMeansR "user-1" else 0) = 4
    norm_num
  have h4 : ratingValue ratingsR false userMeansR "user-4" "item-6" = 4 := by
    show (some (4:ℝ)).getD 0 - (if false then userMeansR "user-4" else 0) = 4
    norm_num
  rw [if_neg (by simp : ¬ false = true)]
  rw [h1, h4]
  congr 1
  show (cosRaw _ _ * 4 + (cosRaw _ _ * 4 + 0)) / (cosRaw _ _ + (cosRaw _ _ + 0)) = 4
  rw [add_zero, add_zero, div_eq_iff (ne_of_gt cosSum14_pos)]
  ring

/-- The predictor's answer for (user-3, item-1, k = 2, uncentered) under
Pearson correlation. -/
lemma predict_pearson_i1 : predict ratingsR pearsonSim "user-3" "item-1" 2 false userMeansR =
    .ok pearsonPredict31 := by
  rw [predict_pair ratingsR pearsonSim "user-3" "item-1" 2 false userMeansR "user-2" "user-1"
    hmemPearson_i1 topK_pearson_i1
    (by show pearson _ _ + (pearson _ _ + 0) ≠ 0
        have := pearsonSum21_pos
        intro h
        rw [add_zero] at h
        linarith)]
  have h2 : ratingValue ratingsR false userMeansR "user-2" "item-1" = 6 := by
    show (some (6:ℝ)).getD 0 - (if false then userMeansR "user-2" else 0) = 6
    norm_num
  have h1 : ratingValue ratingsR false userMeansR "user-1" "item-1" = 7 := by
    show (some (7:ℝ)).getD 0 - (if false then userMeansR "user-1" else 0) = 7
    norm_num
  rw [if_neg (by simp : ¬ false = true)]
  rw [h2, h1, pearsonPredict31]
  norm_num [pearsonSim]

/-- The predictor's answer for (user-3, item-1, k = 2, centered) under
Pearson correlation. -/
lemma predict_pearson_i1c : predict ratingsR pearsonSim "user-3" "item-1" 2 true userMeansR =
    .ok pearsonPredict31c := by
  rw [predict_pair ratingsR pearsonSim "user-3" "item-1" 2 true userMeansR "user-2" "user-1"
    hmemPearson_i1 topK_pearson_i1
    (by show pearson _ _ + (pearson _ _ + 0) ≠ 0
        have := pearsonSum21_pos
        intro h
        rw [add_zero] at h
        linarith)]
  have h2 : ratingValue ratingsR true userMeansR "user-2" "item-1" = 6 - userMeansR "user-2" := by
    show (some (6:ℝ)).getD 0 - (if true then userMeansR "user-2" else 0) =
      6 - userMeansR "user-2"
    norm_num
  have h1 : ratingValue ratingsR true userMeansR "user-1" "item-1" = 7 - userMeansR "user-1" := by
    show (some (7:ℝ)).getD 0 - (if true then userMeansR "user-1" else 0) =
      7 - userMeansR "user-1"
    norm_num
  rw [if_pos rfl]
  rw [h2, h1, pearsonPredict31c]
  norm_num [pearsonSim]

/-! Rational bounds for the concrete prediction values. -/

lemma cosPredict31_gt : (4.35 : ℝ) < cosPredict31 := by
  rw [cosPredict31, lt_div_iff₀ cosSum14_pos]
  have := cos31_lb
  have := cos34_ub
  linarith

lemma cosPredict31_lt : cosPredict31 < 4.36 := by
  rw [cosPredict31, div_lt_iff₀ cosSum14_pos]
  have := cos31_ub
  have := cos34_lb
  linarith

lemma nbPredict31_gt : (6.581 : ℝ) < prediction_user_3_item_1 := by
  have heq : prediction_user_3_item_1 =
      (cosRaw "user-3" "user-1" * 7 + cosRaw "user-3" "user-2" * 6) /
        (cosRaw "user-3" "user-1" + cosRaw "user-3" "user-2") := rfl
  have hsum : 0 < cosRaw "user-3" "user-1" + cosRaw "user-3" "user-2" := by
    have := cos31_lb
    have := cos32_lb
    linarith
  rw [heq, lt_div_iff₀ hsum]
  have := cos31_lb
  have := cos32_ub
  linarith

lemma nbPredict31_lt : prediction_user_3_item_1 < 6.583 := by
  have heq : prediction_user_3_item_1 =
      (cosRaw "user-3" "user-1" * 7 + cosRaw "user-3" "user-2" * 6) /
        (cosRaw "user-3" "user-1" + cosRaw "user-3" "user-2") := rfl
  have hsum : 0 < cosRaw "user-3" "user-1" + cosRaw "user-3" "user-2" := by
    have := cos31_lb
    have := cos32_lb
    linarith
  rw [heq, div_lt_iff₀ hsum]
  have := cos31_ub
  have := cos32_lb
  linarith

lemma pearsonPredict31_gt : (6.4795 : ℝ) < pearsonPredict31 := by
  rw [pearsonPredict31, lt_div_iff₀ pearsonSum21_pos]
  have := pearson31_lb
  have := pearson32_ub
  linarith

lemma pearsonPredict31_lt : pearsonPredict31 < 6.4796 := by
  rw [pearsonPredict31, div_lt_iff₀ pearsonSum21_pos]
  have := pearson31_ub
  have := pearson32_lb
  linarith

lemma pearsonPredict31c_eq : pearsonPredict31c =
    2 + (pearson "user-3" "user-2" * (6 / 5) + pearson "user-3" "user-1" * (3 / 2)) /
      (pearson "user-3" "user-2" + pearson "user-3" "user-1") := by
  rw [pearsonPredict31c, userMeans_1, userMeans_2, userMeans_3]
  norm_num

lemma pearsonPredict31c_gt : (3.3438 : ℝ) < pearsonPredict31c := by
  rw [pearsonPredict31c_eq]
  have h : (1.3438 : ℝ) <
      (pearson "user-3" "user-2" * (6 / 5) + pearson "user-3" "user-1" * (3 / 2)) /
        (pearson "user-3" "user-2" + pearson "user-3" "user-1") := by
    rw [lt_div_iff₀ pearsonSum21_pos]
    have := pearson31_lb
    have := pearson32_ub
    linarith
  linarith


/-! Lemmas about mean-centering a row. -/

/-- Mapping a function over the present entries commutes with collecting
the observed values. -/
lemma obsVals_map_option (f : α → α) (row : List (Option α)) :
    obsVals (row.map (Option.map f)) = (obsVals row).map f := by
  induction row with
  | nil => rfl
  | cons hd tl ih =>
    cases hd with
    | none => simpa [obsVals, List.filterMap_cons] using ih
    | some a => simpa [obsVals, List.filterMap_cons] using ih

/-- Subtracting a constant from every list element shifts the sum by the
length times the constant. -/
lemma sum_map_sub [LinearOrderedField α] (c : α) (l : List α) :
    (l.map fun x => x - c).sum = l.sum - l.length * c := by
  induction l with
  | nil => simp
  | cons x xs ih =>
    simp only [List.map_cons, List.sum_cons, List.length_cons, ih]
    push_cast
    ring

lemma pearsonPredict31c_lt : pearsonPredict31c < 3.344 := by
  rw [pearsonPredict31c_eq]
  have h : (pearson "user-3" "user-2" * (6 / 5) + pearson "user-3" "user-1" * (3 / 2)) /
        (pearson "user-3" "user-2" + pearson "user-3" "user-1") < 1.344 := by
    rw [div_lt_iff₀ pearsonSum21_pos]
    have := pearson31_ub
    have := pearson32_lb
    linarith
  linarith


/-! The claims. -/

/-- Claim C1: for every rating matrix, similarity matrix, target, item,
chosen set of peers and centered flag, whenever the predictor succeeds
it returns the similarity-weighted average of the chosen peers' rating
values (raw ratings when uncentered, mean-centered ratings when
centered), normalized by the sum of the peers' similarities, with
means[target] added when centered. -/
theorem claim_C1_weighted_average [DecidableEq U] [DecidableEq I] [LinearOrderedField α]
    (R : RatingMatrix U I α) (S : SimilarityMatrix U α) (t : U) (i : I) (k : ℕ)
    (c : Bool) (m : U → α)
    (hmem : t ∈ R.users ∧ t ∈ S.entities ∧ i ∈ R.items)
    (hne : topK R S t i k ≠ [])
    (hsum : ((topK R S t i k).map fun u => S.sim t u).sum ≠ 0) :
    predict R S t i k c m = .ok (weightedAverage R S t i c m (topK R S t i k)) :=
  predictOk_eq R S t i k c m hmem hne hsum

/-- Witness for claim C1: on the rational three-user matrix with
all-ones similarity, the k = 2 uncentered prediction for target `a`
succeeds and equals the weighted average over its two peers. -/
theorem claim_C1_witness :
    (("a" ∈ ratingsQ.users ∧ "a" ∈ simQ1.entities ∧ "x" ∈ ratingsQ.items) ∧
        topK ratingsQ simQ1 "a" "x" 2 ≠ [] ∧
        ((topK ratingsQ simQ1 "a" "x" 2).map fun u => simQ1.sim "a" u).sum ≠ 0) ∧
      predict ratingsQ simQ1 "a" "x" 2 false meansQ =
        .ok (weightedAverage ratingsQ simQ1 "a" "x" false meansQ
          (topK ratingsQ simQ1 "a" "x" 2)) := by
  have h1 : "a" ∈ ratingsQ.users ∧ "a" ∈ simQ1.entities ∧ "x" ∈ ratingsQ.items := by
    refine ⟨?_, ?_, ?_⟩ <;> decide
  have h2 : topK ratingsQ simQ1 "a" "x" 2 ≠ [] := by decide
  have h3 : ((topK ratingsQ simQ1 "a" "x" 2).map fun u => simQ1.sim "a" u).sum ≠ 0 := by
    rw [show topK ratingsQ simQ1 "a" "x" 2 = ["b", "c"] from by decide]
    show (1 : ℚ) + (1 + 0) ≠ 0
    norm_num
  exact ⟨⟨h1, h2, h3⟩, claim_C1_weighted_average ratingsQ simQ1 "a" "x" 2 false meansQ h1 h2 h3⟩

/-- Claim C2 counterexample: under the raw zero-filled cosine similarity
matrix, user-4 is strictly more similar to user-3 than user-2 is, so the
top-2 neighbors of user-3 are not user-1 and user-2. -/
theorem claim_C2_counterexample :
    cosRaw "user-3" "user-2" < cosRaw "user-3" "user-4" ∧
      topK ratingsR cosineRawSim "user-3" "item-1" 2 ≠ ["user-1", "user-2"] := by
  constructor
  · have := cos32_ub
    have := cos34_lb
    linarith
  · rw [topK_cos_i1]
    decide

/-- Claim C2 amended: under the raw zero-filled cosine similarity
matrix, the top-2 neighbors of user-3 for item-1 are user-1 and user-4
(user-4's similarity exceeds 0.6137 while user-2's is below 0.5578). -/
theorem claim_C2_amended :
    topK ratingsR cosineRawSim "user-3" "item-1" 2 = ["user-1", "user-4"] ∧
      (0.6137 : ℝ) < cosRaw "user-3" "user-4" ∧ cosRaw "user-3" "user-2" < 0.5578 :=
  ⟨topK_cos_i1, cos34_lb, cos32_ub⟩

/-- Claim C3 counterexample: the predictor's value for
(user-3, item-1, k = 2, uncentered) under raw cosine similarity is below
5, not approximately 6.582: the top-2 selection picks user-1 and user-4,
not the user-1/user-2 pair the notebook hard-codes. -/
theorem claim_C3_counterexample :
    predict ratingsR cosineRawSim "user-3" "item-1" 2 false userMeansR = .ok cosPredict31 ∧
      cosPredict31 < 5 := by
  refine ⟨predict_cos_i1, ?_⟩
  have := cosPredict31_lt
  linarith

/-- Claim C3 amended: under raw cosine similarity the predictor returns
a value strictly between 4.35 and 4.36 for (user-3, item-1, k = 2,
uncentered) — its top-2 peers being user-1 and user-4 — and exactly 4
for (user-3, item-6, k = 2, uncentered); the notebook's hard-coded
weighted average over user-1 and user-2 lies strictly between 6.581 and
6.583, which is the printed value 6.582002852403109. -/
theorem claim_C3_amended :
    predict ratingsR cosineRawSim "user-3" "item-1" 2 false userMeansR = .ok cosPredict31 ∧
      (4.35 : ℝ) < cosPredict31 ∧ cosPredict31 < 4.36 ∧
      predict ratingsR cosineRawSim "user-3" "item-6" 2 false userMeansR = .ok 4 ∧
      (6.581 : ℝ) < prediction_user_3_item_1 ∧ prediction_user_3_item_1 < 6.583 :=
  ⟨predict_cos_i1, cosPredict31_gt, cosPredict31_lt, predict_cos_i6,
    nbPredict31_gt, nbPredict31_lt⟩

/-- Claim C4: under pairwise-complete Pearson correlation the top-2
neighbors of user-3 for item-1 are user-2 and user-1, with correlations
0.894427... (within 0.001 of 0.894) and 0.970725... (within 0.001 of
0.971); the k = 2 uncentered prediction lies strictly between 6.4795 and
6.4796, and the mean-centered prediction lies strictly between 3.3438
and 3.344 (within 0.0001 of 3.3439). -/
theorem claim_C4_pearson :
    topK ratingsR pearsonSim "user-3" "item-1" 2 = ["user-2", "user-1"] ∧
      (0.894 : ℝ) < pearson "user-3" "user-1" ∧ pearson "user-3" "user-1" < 0.895 ∧
      (0.9705 : ℝ) < pearson "user-3" "user-2" ∧ pearson "user-3" "user-2" < 0.9715 ∧
      predict ratingsR pearsonSim "user-3" "item-1" 2 false userMeansR = .ok pearsonPredict31 ∧
      (6.4795 : ℝ) < pearsonPredict31 ∧ pearsonPredict31 < 6.4796 ∧
      predict ratingsR pearsonSim "user-3" "item-1" 2 true userMeansR = .ok pearsonPredict31c ∧
      (3.3438 : ℝ) < pearsonPredict31c ∧ pearsonPredict31c < 3.344 := by
  refine ⟨topK_pearson_i1, ?_, ?_, ?_, ?_, predict_pearson_i1, pearsonPredict31_gt,
    pearsonPredict31_lt, predict_pearson_i1c, pearsonPredict31c_gt, pearsonPredict31c_lt⟩
  · have := pearson31_lb
    linarith
  · have := pearson31_ub
    linarith
  · have := pearson32_lb
    linarith
  · have := pearson32_ub
    linarith

/-- Claim C5: whenever the guards pass, peers were chosen, and the sum
of the chosen peers' similarities is exactly zero, the predictor fails
with the DegenerateNormalization condition rather than dividing or
returning a default. -/
theorem claim_C5_degenerate [DecidableEq U] [DecidableEq I] [LinearOrderedField α]
    (R : RatingMatrix U I α) (S : SimilarityMatrix U α) (t : U) (i : I) (k : ℕ)
    (c : Bool) (m : U → α)
    (hmem : t ∈ R.users ∧ t ∈ S.entities ∧ i ∈ R.items)
    (hne : topK R S t i k ≠ [])
    (hz : ((topK R S t i k).map fun u => S.sim t u).sum = 0) :
    predict R S t i k c m = .error .DegenerateNormalization := by
  simp only [predict]
  rw [if_pos hmem, if_neg hne, if_pos hz]

/-- Witness for claim C5: on the rational matrix whose two peers of `a`
have similarities 1 and -1, the k = 2 prediction fails with
DegenerateNormalization. -/
theorem claim_C5_witness :
    (("a" ∈ ratingsQ.users ∧ "a" ∈ simQ.entities ∧ "x" ∈ ratingsQ.items) ∧
        topK ratingsQ simQ "a" "x" 2 ≠ [] ∧
        ((topK ratingsQ simQ "a" "x" 2).map fun u => simQ.sim "a" u).sum = 0) ∧
      predict ratingsQ simQ "a" "x" 2 false meansQ = .error .DegenerateNormalization := by
  have h1 : "a" ∈ ratingsQ.users ∧ "a" ∈ simQ.entities ∧ "x" ∈ ratingsQ.items := by
    refine ⟨?_, ?_, ?_⟩ <;> decide
  have h2 : topK ratingsQ simQ "a" "x" 2 ≠ [] := by decide
  have h3 : ((topK ratingsQ simQ "a" "x" 2).map fun u => simQ.sim "a" u).sum = 0 := by
    rw [show topK ratingsQ simQ "a" "x" 2 = ["b", "c"] from by decide]
    show (1 : ℚ) + (-1 + 0) = 0
    norm_num
  exact ⟨⟨h1, h2, h3⟩, claim_C5_degenerate ratingsQ simQ "a" "x" 2 false meansQ h1 h2 h3⟩

/-- Claim C6: whenever the target or the item is absent from the
respective matrix, the predictor fails with the UnknownEntity condition
and does not return a default value. -/
theorem claim_C6_unknown [DecidableEq U] [DecidableEq I] [LinearOrderedField α]
    (R : RatingMatrix U I α) (S : SimilarityMatrix U α) (t : U) (i : I) (k : ℕ)
    (c : Bool) (m : U → α)
    (h : t ∉ R.users ∨ t ∉ S.entities ∨ i ∉ R.items) :
    predict R S t i k c m = .error .UnknownEntity := by
  have hneg : ¬(t ∈ R.users ∧ t ∈ S.entities ∧ i ∈ R.items) := by
    rintro ⟨h1, h2, h3⟩
    rcases h with h | h | h <;> exact h (by assumption)
  simp only [predict]
  rw [if_neg hneg]

/-- Witness for claim C6: querying an identifier not present in the
rational matrix fails with UnknownEntity. -/
theorem claim_C6_witness :
    ("zz" ∉ ratingsQ.users ∨ "zz" ∉ simQ1.entities ∨ "x" ∉ ratingsQ.items) ∧
      predict ratingsQ simQ1 "zz" "x" 1 false meansQ = .error .UnknownEntity := by
  have h : "zz" ∉ ratingsQ.users ∨ "zz" ∉ simQ1.entities ∨ "x" ∉ ratingsQ.items :=
    Or.inl (by decide)
  exact ⟨h, claim_C6_unknown ratingsQ simQ1 "zz" "x" 1 false meansQ h⟩

/-- Claim C7 counterexample: the predictor excludes the target from its
own neighborhood, so an entity with a known rating and self-similarity
1.0 is never its own sole neighbor; on a one-user matrix the k = 1
query fails with NoEligibleNeighbors instead of returning the entity's
own rating 5. -/
theorem claim_C7_counterexample :
    ratingsOne.rating "a" "x" = some 5 ∧ simOne.sim "a" "a" = 1 ∧
      predict ratingsOne simOne "a" "x" 1 false meansQ = .error .NoEligibleNeighbors ∧
      predict ratingsOne simOne "a" "x" 1 false meansQ ≠ .ok 5 := by
  refine ⟨rfl, rfl, rfl, ?_⟩
  rw [show predict ratingsOne simOne "a" "x" 1 false meansQ = .error .NoEligibleNeighbors
    from rfl]
  simp

/-- Claim C7 amended: with k = 1, when the chosen neighborhood is a
single peer (necessarily distinct from the target) with similarity 1.0
and a known rating for the item, the uncentered prediction is exactly
that rating. -/
theorem claim_C7_amended [DecidableEq U] [DecidableEq I] [LinearOrderedField α]
    (R : RatingMatrix U I α) (S : SimilarityMatrix U α) (t : U) (i : I)
    (m : U → α) (u : U) (r : α)
    (hmem : t ∈ R.users ∧ t ∈ S.entities ∧ i ∈ R.items)
    (htop : topK R S t i 1 = [u])
    (hsim : S.sim t u = 1)
    (hr : R.rating u i = some r) :
    predict R S t i 1 false m = .ok r := by
  simp only [predict]
  rw [if_pos hmem]
  simp only [htop, List.map_cons, List.map_nil, List.sum_cons, List.sum_nil, hsim]
  rw [if_neg (by simp : ¬([u] = [])), if_neg (by norm_num : (1:α) + 0 ≠ 0)]
  simp only [ratingValue, hr, Option.getD_some]
  norm_num

/-- Witness for the amended claim C7: peer `b` has similarity 1 to `a`
and rating 5, and the k = 1 prediction is exactly 5. -/
theorem claim_C7_witness :
    (("a" ∈ ratingsQ.users ∧ "a" ∈ simQ1.entities ∧ "x" ∈ ratingsQ.items) ∧
        topK ratingsQ simQ1 "a" "x" 1 = ["b"] ∧ simQ1.sim "a" "b" = 1 ∧
        ratingsQ.rating "b" "x" = some 5) ∧
      predict ratingsQ simQ1 "a" "x" 1 false meansQ = .ok 5 := by
  have h1 : "a" ∈ ratingsQ.users ∧ "a" ∈ simQ1.entities ∧ "x" ∈ ratingsQ.items := by
    refine ⟨?_, ?_, ?_⟩ <;> decide
  have h2 : topK ratingsQ simQ1 "a" "x" 1 = ["b"] := by decide
  exact ⟨⟨h1, h2, rfl, rfl⟩,
    claim_C7_amended ratingsQ simQ1 "a" "x" meansQ "b" 5 h1 h2 rfl rfl⟩

/-- Claim C8 (centering round-trip): with k = 1, a sole neighbor of
nonzero similarity whose raw rating is r, and centering enabled, the
prediction is mean(target) plus r minus mean(neighbor). -/
theorem claim_C8_centering_roundtrip [DecidableEq U] [DecidableEq I] [LinearOrderedField α]
    (R : RatingMatrix U I α) (S : SimilarityMatrix U α) (t : U) (i : I)
    (m : U → α) (u : U) (r : α)
    (hmem : t ∈ R.users ∧ t ∈ S.entities ∧ i ∈ R.items)
    (htop : topK R S t i 1 = [u])
    (hs : S.sim t u ≠ 0)
    (hr : R.rating u i = some r) :
    predict R S t i 1 true m = .ok (m t + (r - m u)) := by
  simp only [predict]
  rw [if_pos hmem]
  simp only [htop, List.map_cons, List.map_nil, List.sum_cons, List.sum_nil]
  rw [if_neg (by simp : ¬([u] = [])), if_neg (by simpa using hs)]
  simp only [ratingValue, hr, Option.getD_some, if_pos rfl, add_zero]
  rw [mul_div_cancel_left₀ _ hs]
  simp

/-- Witness for claim C8: the centered k = 1 prediction for `a` with
sole neighbor `b` (rating 5) equals meansQ a + (5 - meansQ b). -/
theorem claim_C8_witness :
    (("a" ∈ ratingsQ.users ∧ "a" ∈ simQ1.entities ∧ "x" ∈ ratingsQ.items) ∧
        topK ratingsQ simQ1 "a" "x" 1 = ["b"] ∧ simQ1.sim "a" "b" ≠ 0 ∧
        ratingsQ.rating "b" "x" = some 5) ∧
      predict ratingsQ simQ1 "a" "x" 1 true meansQ = .ok (meansQ "a" + (5 - meansQ "b")) := by
  have h1 : "a" ∈ ratingsQ.users ∧ "a" ∈ simQ1.entities ∧ "x" ∈ ratingsQ.items := by
    refine ⟨?_, ?_, ?_⟩ <;> decide
  have h2 : topK ratingsQ simQ1 "a" "x" 1 = ["b"] := by decide
  have h3 : simQ1.sim "a" "b" ≠ 0 := by
    show (1 : ℚ) ≠ 0
    norm_num
  exact ⟨⟨h1, h2, h3, rfl⟩,
    claim_C8_centering_roundtrip ratingsQ simQ1 "a" "x" meansQ "b" 5 h1 h2 h3 rfl⟩

/-- Claim C9: centering a row subtracts the row's mean over observed
entries from each present entry, so the mean of the observed centered
entries is zero, and the missing-entry structure of the row is
unchanged. -/
theorem claim_C9_centering_invariant [LinearOrderedField α] (row : List (Option α))
    (h : obsVals row ≠ []) :
    rowMean (centerRow row) = 0 ∧
      (centerRow row).map Option.isSome = row.map Option.isSome := by
  constructor
  · have hlen : ((obsVals row).length : α) ≠ 0 := by
      have hpos : 0 < (obsVals row).length := List.length_pos.mpr h
      exact_mod_cast Nat.pos_iff_ne_zero.mp hpos
    have h1 : obsVals (centerRow row) = (obsVals row).map fun x => x - rowMean row := by
      rw [centerRow, obsVals_map_option]
    rw [rowMean, h1, sum_map_sub, List.length_map]
    have hm : ((obsVals row).length : α) * rowMean row = (obsVals row).sum := by
      rw [rowMean, mul_comm, div_mul_cancel₀ _ hlen]
    rw [hm, sub_self, zero_div]
  · rw [centerRow, List.map_map]
    exact List.map_congr_left fun o _ => by cases o <;> rfl

/-- Witness for claim C9: user-2's rational row, with one missing entry,
centers to a row of observed mean zero with the same missing entry. -/
theorem claim_C9_witness :
    obsVals rowQ2 ≠ [] ∧
      (rowMean (centerRow rowQ2) = 0 ∧
        (centerRow rowQ2).map Option.isSome = rowQ2.map Option.isSome) :=
  ⟨by decide, claim_C9_centering_invariant rowQ2 (by decide)⟩

/-- Claim C10 (convex-combination bound): when the chosen peers are
non-empty, all their similarities to the target are strictly positive,
and every chosen peer's rating for the item lies between a and b, the
uncentered prediction succeeds and also lies between a and b; and if
every chosen peer rates the item with the same value r, the prediction
is exactly r. -/
theorem claim_C10_convex_bound [DecidableEq U] [DecidableEq I] [LinearOrderedField α]
    (R : RatingMatrix U I α) (S : SimilarityMatrix U α) (t : U) (i : I) (k : ℕ)
    (m : U → α) (a b : α)
    (hmem : t ∈ R.users ∧ t ∈ S.entities ∧ i ∈ R.items)
    (hne : topK R S t i k ≠ [])
    (hpos : ∀ u ∈ topK R S t i k, 0 < S.sim t u)
    (hab : ∀ u ∈ topK R S t i k, a ≤ (R.rating u i).getD 0 ∧ (R.rating u i).getD 0 ≤ b) :
    predict R S t i k false m = .ok (weightedAverage R S t i false m (topK R S t i k)) ∧
      a ≤ weightedAverage R S t i false m (topK R S t i k) ∧
      weightedAverage R S t i false m (topK R S t i k) ≤ b ∧
      ∀ r : α, (∀ u ∈ topK R S t i k, (R.rating u i).getD 0 = r) →
        weightedAverage R S t i false m (topK R S t i k) = r := by
  have hssum : 0 < ((topK R S t i k).map fun u => S.sim t u).sum := by
    refine List.sum_pos _ ?_ ?_
    · intro x hx
      obtain ⟨u, hu, rfl⟩ := List.mem_map.mp hx
      exact hpos u hu
    · simpa using hne
  have hrv : (fun u => S.sim t u * ratingValue R false m u i) =
      fun u => S.sim t u * (R.rating u i).getD 0 := by
    funext u
    simp [ratingValue]
  have hwa : weightedAverage R S t i false m (topK R S t i k) =
      ((topK R S t i k).map fun u => S.sim t u * (R.rating u i).getD 0).sum /
        ((topK R S t i k).map fun u => S.sim t u).sum := by
    rw [weightedAverage, hrv]
    norm_num
  refine ⟨predictOk_eq R S t i k false m hmem hne (ne_of_gt hssum), ?_, ?_, ?_⟩
  · rw [hwa, le_div_iff₀ hssum]
    have h1 : a * ((topK R S t i k).map fun u => S.sim t u).sum =
        ((topK R S t i k).map fun u => S.sim t u * a).sum := by
      rw [List.sum_map_mul_right, mul_comm]
    rw [h1]
    exact List.sum_le_sum fun u hu =>
      mul_le_mul_of_nonneg_left (hab u hu).1 (le_of_lt (hpos u hu))
  · rw [hwa, div_le_iff₀ hssum]
    have h1 : b * ((topK R S t i k).map fun u => S.sim t u).sum =
        ((topK R S t i k).map fun u => S.sim t u * b).sum := by
      rw [List.sum_map_mul_right, mul_comm]
    rw [h1]
    exact List.sum_le_sum fun u hu =>
      mul_le_mul_of_nonneg_left (hab u hu).2 (le_of_lt (hpos u hu))
  · intro r hr
    rw [hwa]
    have h2 : ((topK R S t i k).map fun u => S.sim t u * (R.rating u i).getD 0) =
        (topK R S t i k).map fun u => S.sim t u * r :=
      List.map_congr_left fun u hu => by rw [hr u hu]
    rw [h2, List.sum_map_mul_right, mul_comm, mul_div_assoc,
      div_self (ne_of_gt hssum), mul_one]

/-- Witness for claim C10: both peers of `a` rate the item 5 with
positive unit similarity, so the prediction succeeds and lies between 4
and 6. -/
theorem claim_C10_witness :
    (("a" ∈ ratingsQ.users ∧ "a" ∈ simQ1.entities ∧ "x" ∈ ratingsQ.items) ∧
        topK ratingsQ simQ1 "a" "x" 2 ≠ [] ∧
        (∀ u ∈ topK ratingsQ simQ1 "a" "x" 2, 0 < simQ1.sim "a" u) ∧
        (∀ u ∈ topK ratingsQ simQ1 "a" "x" 2,
          (4 : ℚ) ≤ (ratingsQ.rating u "x").getD 0 ∧ (ratingsQ.rating u "x").getD 0 ≤ 6)) ∧
      predict ratingsQ simQ1 "a" "x" 2 false meansQ =
          .ok (weightedAverage ratingsQ simQ1 "a" "x" false meansQ
            (topK ratingsQ simQ1 "a" "x" 2)) ∧
        (4 : ℚ) ≤ weightedAverage ratingsQ simQ1 "a" "x" false meansQ
          (topK ratingsQ simQ1 "a" "x" 2) ∧
        weightedAverage ratingsQ simQ1 "a" "x" false meansQ
          (topK ratingsQ simQ1 "a" "x" 2) ≤ 6 := by
  have h1 : "a" ∈ ratingsQ.users ∧ "a" ∈ simQ1.entities ∧ "x" ∈ ratingsQ.items := by
    refine ⟨?_, ?_, ?_⟩ <;> decide
  have h2 : topK ratingsQ simQ1 "a" "x" 2 ≠ [] := by decide
  have h3 : ∀ u ∈ topK ratingsQ simQ1 "a" "x" 2, 0 < simQ1.sim "a" u := by decide
  have h4 : ∀ u ∈ topK ratingsQ simQ1 "a" "x" 2,
      (4 : ℚ) ≤ (ratingsQ.rating u "x").getD 0 ∧ (ratingsQ.rating u "x").getD 0 ≤ 6 := by
    decide
  have hmain := claim_C10_convex_bound ratingsQ simQ1 "a" "x" 2 meansQ 4 6 h1 h2 h3 h4
  exact ⟨⟨h1, h2, h3, h4⟩, hmain.1, hmain.2.1, hmain.2.2.1⟩

end RecSys
